import Mathlib

/-!
Shallow embedding of the device-linking (rendezvous) orchestrator in
src/utils/Rendezvous.ts.

The TypeScript class `Rendezvous` drives one linking session over an injected
channel.  Its async methods are embedded as pure Lean functions: every call to
an external capability (channel send/receive, login, crypto storage, sleep) is
recorded in an explicit effect trace, and the results those calls would return
are supplied as environment inputs.  Thrown `Error`s become `Except.error`
with an `RError` value mirroring the thrown message; a method returning
`undefined` becomes `Except.ok none`.  JavaScript truthiness tests on optional
strings (`if (!x)`) are embedded by `truthyStr`, which is false exactly on the
absent value and the empty string.
-/

namespace Rendezvous

/-- Cancellation reasons forwarded to the channel (RendezvousCancellationReason). -/
inductive CancellationReason where
  | userDeclined
  | userCancelled
deriving Repr, DecidableEq

/-- The loosely-typed payload exchanged over the channel.  Each field the source
destructures may be absent, so all are optional; a device-key map is an
association list of key id to key value. -/
structure Payload where
  outcome : Option String
  homeserver : Option String
  login_token : Option String
  deviceId : Option String
  deviceKeys : Option (List (String × String))
  user : Option String
deriving Repr, DecidableEq

/-- The payload with every field absent. -/
def Payload.empty : Payload := ⟨none, none, none, none, none, none⟩

/-- A device's published identity keys (matrix-js-sdk DeviceInfo, of which the
orchestrator only reads the key map). -/
structure DeviceInfo where
  keys : List (String × String)
deriving Repr, DecidableEq

/-- Credentials returned by the external login capability (IMatrixClientCreds,
restricted to the fields the orchestrator reads). -/
structure LoginCreds where
  deviceId : String
  userId : String
deriving Repr, DecidableEq

/-- The record produced by the external setDeviceVerification capability,
modelled as the arguments it was invoked with. -/
structure VerificationRecord where
  userId : String
  deviceId : String
  verified : Bool
  blocked : Bool
  crossSigned : Bool
deriving Repr, DecidableEq

/-- One call to an external capability, in program order. -/
inductive Effect where
  | connect
  | onConfirmationDigits (digits : String)
  | receive
  | cancelReq (reason : CancellationReason)
  | sendLoginRequest (homeserver token : String)
  | setLoggedIn
  | getRawStoredDevicesForUser (userId : String)
  | send (p : Payload)
  | authedRequestLoginToken
  | getStoredDevice (userId deviceId : String)
  | sleep (ms : Nat)
  | setDeviceVerification (userId deviceId : String) (verified blocked crossSigned : Bool)
  | channelGenerateCode
deriving Repr, DecidableEq

/-- Errors thrown by the orchestrator, one constructor per `throw new Error`
site in the source, carrying the data interpolated into the message. -/
inductive RError where
  | noHomeserverReturned
  | noLoginTokenReturned
  | unknownDevice (userId deviceId : String)
  | linkingFailed
  | keyCountMismatch (expected actual : Nat)
  | keyMismatch (keyId : String)
  | noDeviceToSign
  | deviceNotOnlineWithinTimeout
deriving Repr, DecidableEq

/-- The orchestrator's per-session mutable fields read by the embedded methods. -/
structure Session where
  code : Option String
  newDeviceId : Option String
  newDeviceKeys : Option (List (String × String))
deriving Repr, DecidableEq

/-- JavaScript truthiness of an optional string: false for `undefined` and for
the empty string (the source guards with `if (!x)` / `if (x)`). -/
def truthyStr : Option String → Bool
  | none => false
  | some s => !(s == "")

/-- JavaScript object indexing `m[k]` on an association list. -/
def alistLookup {β : Type} : List (String × β) → String → Option β
  | [], _ => none
  | (k, v) :: rest, key => if k == key then some v else alistLookup rest key

/-- JSON.stringify of the channel's generated code: an abstract serialisation,
kept only up to the fact that it wraps its argument in quotes (hence is never
the empty string). -/
def jsonStringify (c : String) : String := "\x22" ++ c ++ "\x22"

/-- Embedding of generateCode(): a no-op when a code is already stored,
otherwise one channel generateCode call whose serialised result is stored.
`channelCode` is the value the channel would return.  Returns the updated
session and the effect trace. -/
def generateCode (s : Session) (channelCode : String) : Session × List Effect :=
  if truthyStr s.code then (s, [])
  else ({ s with code := some (jsonStringify channelCode) }, [Effect.channelGenerateCode])

/-- Environment for completeOnNewDevice(): results of the external calls it
may make, in order of occurrence in the source. -/
structure NewDeviceEnv where
  digits : String
  hasConfirmationCallback : Bool
  received : Option Payload
  loginResult : LoginCreds
  cryptoEnabled : Bool
  storedDevicesForUser : Option (List (String × DeviceInfo))
deriving Repr

/-- The effects of completeOnNewDevice() up to and including the receive():
connect, the optional confirmation-digits callback, then receive. -/
def newDevicePre (env : NewDeviceEnv) : List Effect :=
  Effect.connect ::
    ((if env.hasConfirmationCallback then [Effect.onConfirmationDigits env.digits] else []) ++
      [Effect.receive])

/-- Embedding of completeOnNewDevice().  Returns the effect trace and either an
error or the optional login credentials (`none` embeds returning undefined). -/
def completeOnNewDevice (env : NewDeviceEnv) : List Effect × Except RError (Option LoginCreds) :=
  let pre := newDevicePre env
  match env.received with
  | none => (pre, Except.ok none)
  | some p =>
    if p.outcome = some "declined" then
      (pre ++ [Effect.cancelReq CancellationReason.userDeclined], Except.ok none)
    else if truthyStr p.homeserver = false then
      (pre, Except.error RError.noHomeserverReturned)
    else if truthyStr p.login_token = false then
      (pre, Except.error RError.noLoginTokenReturned)
    else
      let hs := p.homeserver.getD ""
      let tok := p.login_token.getD ""
      let login := env.loginResult
      let effs := pre ++ [Effect.sendLoginRequest hs tok, Effect.setLoggedIn]
      if env.cryptoEnabled then
        let effs2 := effs ++ [Effect.getRawStoredDevicesForUser login.userId]
        match env.storedDevicesForUser with
        | none => (effs2, Except.error (RError.unknownDevice login.userId login.deviceId))
        | some devices =>
          match alistLookup devices login.deviceId with
          | none => (effs2, Except.error (RError.unknownDevice login.userId login.deviceId))
          | some device =>
            let data : Payload :=
              { Payload.empty with
                  outcome := some "success", deviceId := some login.deviceId,
                  deviceKeys := some device.keys }
            (effs2 ++ [Effect.send data], Except.ok (some login))
      else
        let data : Payload :=
          { Payload.empty with outcome := some "success", deviceId := some login.deviceId }
        (effs ++ [Effect.send data], Except.ok (some login))

/-- Embedding of declineLoginOnExistingDevice(): one send of the decline payload. -/
def declineLoginOnExistingDevice : List Effect :=
  [Effect.send { Payload.empty with outcome := some "declined" }]

/-- Environment for confirmLoginOnExistingDevice(): the one-time token the
authenticated HTTP call returns, the client's own user id and base URL, and
the response payload the channel yields (if any). -/
structure ExistingDeviceEnv where
  login_token : String
  userId : String
  baseUrl : String
  received : Option Payload
deriving Repr

/-- The offer payload confirmLoginOnExistingDevice() sends: user id, homeserver
base URL and login token, every other field absent (the source sends the
object literal at line 143, which carries no outcome discriminant). -/
def offerPayload (env : ExistingDeviceEnv) : Payload :=
  { Payload.empty with
      user := some env.userId, homeserver := some env.baseUrl,
      login_token := some env.login_token }

/-- Embedding of confirmLoginOnExistingDevice().  Returns the updated session,
the effect trace, and either an error or the optional new device id. -/
def confirmLoginOnExistingDevice (s : Session) (env : ExistingDeviceEnv) :
    Session × List Effect × Except RError (Option String) :=
  let pre := [Effect.authedRequestLoginToken, Effect.send (offerPayload env), Effect.receive]
  match env.received with
  | none => (s, pre, Except.ok none)
  | some res =>
    if res.outcome ≠ some "success" then
      (s, pre, Except.error RError.linkingFailed)
    else
      ({ s with newDeviceId := res.deviceId, newDeviceKeys := res.deviceKeys },
       pre, Except.ok res.deviceId)

/-- The source's key-comparison loop: walk the reported key ids in order and
return the first id whose stored value differs from the reported value
(JavaScript `!==` on possibly-undefined strings is inequality of options). -/
def checkKeysLoop (stored reported : List (String × String)) : List String → Option String
  | [] => none
  | keyId :: rest =>
    if alistLookup stored keyId = alistLookup reported keyId then
      checkKeysLoop stored reported rest
    else some keyId

/-- Embedding of checkAndCrossSignDevice(deviceInfo).  `userId` is the client's
own user id; `newDeviceId` and `newDeviceKeys` are the session fields the
method reads (its caller guarantees they are set). -/
def checkAndCrossSignDevice (userId newDeviceId : String)
    (newDeviceKeys : List (String × String)) (deviceInfo : DeviceInfo) :
    List Effect × Except RError VerificationRecord :=
  let expected := deviceInfo.keys.length
  let actual := newDeviceKeys.length
  if expected ≠ actual then
    ([], Except.error (RError.keyCountMismatch expected actual))
  else
    match checkKeysLoop deviceInfo.keys newDeviceKeys (newDeviceKeys.map Prod.fst) with
    | some keyId => ([], Except.error (RError.keyMismatch keyId))
    | none =>
      ([Effect.setDeviceVerification userId newDeviceId true false true],
       Except.ok ⟨userId, newDeviceId, true, false, true⟩)

/-- Embedding of crossSign(timeout).  `storedDevice1` and `storedDevice2` are
what the two getStoredDevice lookups would return; the second is consulted
only when the first yields nothing. -/
def crossSign (s : Session) (userId : String)
    (storedDevice1 storedDevice2 : Option DeviceInfo) (timeout : Nat) :
    List Effect × Except RError (Option VerificationRecord) :=
  if truthyStr s.newDeviceId = false then
    ([], Except.error RError.noDeviceToSign)
  else
    match s.newDeviceKeys with
    | none => ([], Except.ok none)
    | some keys =>
      if keys.length = 0 then ([], Except.ok none)
      else
        let devId := s.newDeviceId.getD ""
        match storedDevice1 with
        | some deviceInfo =>
          let r := checkAndCrossSignDevice userId devId keys deviceInfo
          (Effect.getStoredDevice userId devId :: r.1, r.2.map some)
        | none =>
          match storedDevice2 with
          | some deviceInfo =>
            let r := checkAndCrossSignDevice userId devId keys deviceInfo
            ([Effect.getStoredDevice userId devId, Effect.sleep timeout,
              Effect.getStoredDevice userId devId] ++ r.1, r.2.map some)
          | none =>
            ([Effect.getStoredDevice userId devId, Effect.sleep timeout,
              Effect.getStoredDevice userId devId],
             Except.error RError.deviceNotOnlineWithinTimeout)

/-- The default timeout of crossSign(): 10 * 1000 milliseconds. -/
def crossSignDefaultTimeout : Nat := 10 * 1000

/-- crossSign() invoked without a timeout argument uses the default. -/
def crossSignD (s : Session) (userId : String)
    (storedDevice1 storedDevice2 : Option DeviceInfo) :
    List Effect × Except RError (Option VerificationRecord) :=
  crossSign s userId storedDevice1 storedDevice2 crossSignDefaultTimeout

/-- Number of getStoredDevice calls in a trace. -/
def lookupCount (l : List Effect) : Nat :=
  l.countP fun e => match e with | Effect.getStoredDevice _ _ => true | _ => false

/-- Number of sleep calls in a trace. -/
def sleepCount (l : List Effect) : Nat :=
  l.countP fun e => match e with | Effect.sleep _ => true | _ => false

/-- Number of channel cancel calls in a trace. -/
def cancelCount (l : List Effect) : Nat :=
  l.countP fun e => match e with | Effect.cancelReq _ => true | _ => false

/-- Number of channel send calls in a trace. -/
def sendCount (l : List Effect) : Nat :=
  l.countP fun e => match e with | Effect.send _ => true | _ => false

/-- Number of sendLoginRequest calls in a trace. -/
def loginCount (l : List Effect) : Nat :=
  l.countP fun e => match e with | Effect.sendLoginRequest _ _ => true | _ => false

/-! ### Helper lemmas -/

theorem jsonStringify_truthy (c : String) : truthyStr (some (jsonStringify c)) = true := by
  have hq : ("\x22" : String).length = 1 := rfl
  have hne : jsonStringify c ≠ "" := by
    intro h
    have hlen : (jsonStringify c).length = 0 := by rw [h]; rfl
    rw [jsonStringify, String.length_append, String.length_append, hq] at hlen
    omega
  simp [truthyStr, hne]

theorem loginCount_newDevicePre (env : NewDeviceEnv) : loginCount (newDevicePre env) = 0 := by
  cases h : env.hasConfirmationCallback <;>
    simp [newDevicePre, loginCount, h, List.countP_cons, List.countP_nil]

theorem cancelCount_newDevicePre (env : NewDeviceEnv) : cancelCount (newDevicePre env) = 0 := by
  cases h : env.hasConfirmationCallback <;>
    simp [newDevicePre, cancelCount, h, List.countP_cons, List.countP_nil]

theorem sendCount_newDevicePre (env : NewDeviceEnv) : sendCount (newDevicePre env) = 0 := by
  cases h : env.hasConfirmationCallback <;>
    simp [newDevicePre, sendCount, h, List.countP_cons, List.countP_nil]

theorem checkKeysLoop_eq_none (stored reported : List (String × String)) (ks : List String) :
    checkKeysLoop stored reported ks = none ↔
      ∀ k ∈ ks, alistLookup stored k = alistLookup reported k := by
  induction ks with
  | nil => simp [checkKeysLoop]
  | cons k rest ih =>
    by_cases h : alistLookup stored k = alistLookup reported k
    · simp only [checkKeysLoop, if_pos h, ih]
      constructor
      · intro hall k2 hk2
        rcases List.mem_cons.mp hk2 with hk2 | hk2
        · exact hk2 ▸ h
        · exact hall k2 hk2
      · intro hall k2 hk2
        exact hall k2 (List.mem_cons_of_mem _ hk2)
    · simp only [checkKeysLoop, if_neg h]
      constructor
      · intro hc; exact Option.noConfusion hc
      · intro hall; exact absurd (hall k (List.mem_cons_self k rest)) h

theorem checkKeysLoop_eq_some (stored reported : List (String × String)) (ks : List String)
    (k : String) (hsome : checkKeysLoop stored reported ks = some k) :
    k ∈ ks ∧ alistLookup stored k ≠ alistLookup reported k := by
  induction ks with
  | nil => exact Option.noConfusion hsome
  | cons a rest ih =>
    by_cases ha : alistLookup stored a = alistLookup reported a
    · rw [checkKeysLoop, if_pos ha] at hsome
      rcases ih hsome with ⟨hm, hne⟩
      exact ⟨List.mem_cons_of_mem _ hm, hne⟩
    · rw [checkKeysLoop, if_neg ha] at hsome
      rcases Option.some.inj hsome with rfl
      exact ⟨List.mem_cons_self a rest, ha⟩

theorem checkAndCrossSignDevice_trace_cases (userId devId : String)
    (keys : List (String × String)) (info : DeviceInfo) :
    (checkAndCrossSignDevice userId devId keys info).1 = [] ∨
    (checkAndCrossSignDevice userId devId keys info).1 =
      [Effect.setDeviceVerification userId devId true false true] := by
  unfold checkAndCrossSignDevice
  dsimp only
  split
  · exact Or.inl rfl
  · split
    · exact Or.inl rfl
    · exact Or.inr rfl

theorem check_lookup_sleep_zero (userId devId : String)
    (keys : List (String × String)) (info : DeviceInfo) :
    lookupCount (checkAndCrossSignDevice userId devId keys info).1 = 0 ∧
    sleepCount (checkAndCrossSignDevice userId devId keys info).1 = 0 := by
  rcases checkAndCrossSignDevice_trace_cases userId devId keys info with h | h <;>
    simp [lookupCount, sleepCount, h, List.countP_cons, List.countP_nil]

theorem crossSign_lookup_sleep_bound (s : Session) (userId : String)
    (d1 d2 : Option DeviceInfo) (timeout : Nat) :
    lookupCount (crossSign s userId d1 d2 timeout).1 ≤ 2 ∧
    sleepCount (crossSign s userId d1 d2 timeout).1 ≤ 1 := by
  cases hT : truthyStr s.newDeviceId with
  | false => simp [crossSign, hT, lookupCount, sleepCount]
  | true =>
    rcases hK : s.newDeviceKeys with _ | keys
    · simp [crossSign, hT, hK, lookupCount, sleepCount]
    · by_cases hL : keys.length = 0
      · simp [crossSign, hT, hK, hL, lookupCount, sleepCount]
      · rcases hd1 : d1 with _ | info
        · rcases hd2 : d2 with _ | info
          · simp [crossSign, hT, hK, hL, hd1, hd2, lookupCount, sleepCount,
              List.countP_cons, List.countP_nil]
          · obtain ⟨h1, h2⟩ := check_lookup_sleep_zero userId (s.newDeviceId.getD "") keys info
            simp only [lookupCount, sleepCount] at h1 h2 ⊢
            simp only [crossSign, hT, hK, hL, hd1, hd2]
            simp [List.countP_append, List.countP_cons, List.countP_nil, h1, h2]
        · obtain ⟨h1, h2⟩ := check_lookup_sleep_zero userId (s.newDeviceId.getD "") keys info
          simp only [lookupCount, sleepCount] at h1 h2 ⊢
          simp only [crossSign, hT, hK, hL, hd1]
          simp [List.countP_cons, h1, h2]

/-! ### Claim theorems -/

/-- Claim C9: generateCode() is idempotent.  When a code already exists the
call is a no-op with an empty effect trace (so the channel's generateCode
capability is not invoked), and calling generateCode twice without an
intervening reset leaves the second call a no-op, so the stored code is
identical after both calls and is never regenerated mid-session. -/
theorem generateCode_idempotent (s : Session) (c1 c2 : String) :
    (truthyStr s.code = true → generateCode s c1 = (s, [])) ∧
    generateCode (generateCode s c1).1 c2 = ((generateCode s c1).1, []) ∧
    (generateCode (generateCode s c1).1 c2).1.code = (generateCode s c1).1.code := by
  have hstep : generateCode (generateCode s c1).1 c2 = ((generateCode s c1).1, []) := by
    cases hT : truthyStr s.code
    · have h1 : (generateCode s c1).1 = { s with code := some (jsonStringify c1) } := by
        simp [generateCode, hT]
      rw [h1]
      simp [generateCode, jsonStringify_truthy]
    · have h1 : (generateCode s c1).1 = s := by simp [generateCode, hT]
      rw [h1]
      simp [generateCode, hT]
  refine ⟨?_, hstep, by rw [hstep]⟩
  intro hT
  simp [generateCode, hT]

/-- Witness for C9 at a session that already stores a code. -/
theorem generateCode_idempotent_witness :
    generateCode ⟨some "\x22abc\x22", none, none⟩ "xyz" = (⟨some "\x22abc\x22", none, none⟩, []) :=
  (generateCode_idempotent ⟨some "\x22abc\x22", none, none⟩ "xyz" "other").1 (by decide)

/-- Claim C8: in both roles, a receive() that yields nothing is surfaced as an
empty result, never a thrown error: completeOnNewDevice and
confirmLoginOnExistingDevice both return undefined (Except.ok none). -/
theorem receive_none_no_result (env : NewDeviceEnv) (s : Session) (envE : ExistingDeviceEnv)
    (h1 : env.received = none) (h2 : envE.received = none) :
    (completeOnNewDevice env).2 = Except.ok none ∧
    (confirmLoginOnExistingDevice s envE).2.2 = Except.ok none := by
  constructor
  · simp [completeOnNewDevice, h1]
  · simp [confirmLoginOnExistingDevice, h2]

/-- Witness for C8 at concrete environments whose channel yields nothing. -/
theorem receive_none_no_result_witness :
    (completeOnNewDevice ⟨"12", false, none, ⟨"DEV1", "@alice:example.org"⟩, false, none⟩).2 =
      Except.ok none ∧
    (confirmLoginOnExistingDevice ⟨none, none, none⟩
        ⟨"tok1", "@alice:example.org", "https://example.org", none⟩).2.2 = Except.ok none :=
  receive_none_no_result ⟨"12", false, none, ⟨"DEV1", "@alice:example.org"⟩, false, none⟩
    ⟨none, none, none⟩ ⟨"tok1", "@alice:example.org", "https://example.org", none⟩ rfl rfl

/-- Claim C3: a received payload that is neither declined nor a valid offer
(homeserver or login token missing, i.e. falsy) makes completeOnNewDevice fail
with the error naming the missing field, and the login capability
(sendLoginRequest) is never invoked on such a run. -/
theorem completeOnNewDevice_protocol_error (env : NewDeviceEnv) (p : Payload)
    (hrec : env.received = some p) (hdecl : p.outcome ≠ some "declined") :
    (truthyStr p.homeserver = false →
      completeOnNewDevice env = (newDevicePre env, Except.error RError.noHomeserverReturned)) ∧
    (truthyStr p.homeserver = true → truthyStr p.login_token = false →
      completeOnNewDevice env = (newDevicePre env, Except.error RError.noLoginTokenReturned)) ∧
    ((truthyStr p.homeserver = false ∨ truthyStr p.login_token = false) →
      loginCount (completeOnNewDevice env).1 = 0) := by
  refine ⟨?_, ?_, ?_⟩
  · intro hh
    simp [completeOnNewDevice, hrec, hdecl, hh]
  · intro hh ht
    simp [completeOnNewDevice, hrec, hdecl, hh, ht]
  · intro hmiss
    rcases hmiss with hh | ht
    · have heq : completeOnNewDevice env =
          (newDevicePre env, Except.error RError.noHomeserverReturned) := by
        simp [completeOnNewDevice, hrec, hdecl, hh]
      rw [heq]
      exact loginCount_newDevicePre env
    · cases hh : truthyStr p.homeserver
      · have heq : completeOnNewDevice env =
            (newDevicePre env, Except.error RError.noHomeserverReturned) := by
          simp [completeOnNewDevice, hrec, hdecl, hh]
        rw [heq]
        exact loginCount_newDevicePre env
      · have heq : completeOnNewDevice env =
            (newDevicePre env, Except.error RError.noLoginTokenReturned) := by
          simp [completeOnNewDevice, hrec, hdecl, hh, ht]
        rw [heq]
        exact loginCount_newDevicePre env

/-- Witness for C3 at an offer payload with a login token but no homeserver. -/
theorem completeOnNewDevice_protocol_error_witness :
    completeOnNewDevice
        ⟨"12", false, some { Payload.empty with login_token := some "tok1" },
         ⟨"DEV1", "@alice:example.org"⟩, false, none⟩ =
      (newDevicePre
        ⟨"12", false, some { Payload.empty with login_token := some "tok1" },
         ⟨"DEV1", "@alice:example.org"⟩, false, none⟩,
       Except.error RError.noHomeserverReturned) :=
  (completeOnNewDevice_protocol_error
      ⟨"12", false, some { Payload.empty with login_token := some "tok1" },
       ⟨"DEV1", "@alice:example.org"⟩, false, none⟩
      { Payload.empty with login_token := some "tok1" } rfl (by decide)).1 rfl

/-- Claim C5: a received payload with outcome declined makes completeOnNewDevice
call cancel(UserDeclined) exactly once, return no result without error, and
perform no login call and no further channel send. -/
theorem completeOnNewDevice_declined (env : NewDeviceEnv) (p : Payload)
    (hrec : env.received = some p) (hdecl : p.outcome = some "declined") :
    completeOnNewDevice env =
      (newDevicePre env ++ [Effect.cancelReq CancellationReason.userDeclined], Except.ok none) ∧
    cancelCount (completeOnNewDevice env).1 = 1 ∧
    loginCount (completeOnNewDevice env).1 = 0 ∧
    sendCount (completeOnNewDevice env).1 = 0 := by
  have heq : completeOnNewDevice env =
      (newDevicePre env ++ [Effect.cancelReq CancellationReason.userDeclined], Except.ok none) := by
    simp [completeOnNewDevice, hrec, hdecl]
  refine ⟨heq, ?_, ?_, ?_⟩ <;> rw [heq]
  · have := cancelCount_newDevicePre env
    simp only [cancelCount] at this ⊢
    simp [List.countP_append, List.countP_cons, List.countP_nil, this]
  · have := loginCount_newDevicePre env
    simp only [loginCount] at this ⊢
    simp [List.countP_append, List.countP_cons, List.countP_nil, this]
  · have := sendCount_newDevicePre env
    simp only [sendCount] at this ⊢
    simp [List.countP_append, List.countP_cons, List.countP_nil, this]

/-- Witness for C5 at a concrete declined payload. -/
theorem completeOnNewDevice_declined_witness :
    completeOnNewDevice
        ⟨"12", false, some { Payload.empty with outcome := some "declined" },
         ⟨"DEV1", "@alice:example.org"⟩, false, none⟩ =
      (newDevicePre
          ⟨"12", false, some { Payload.empty with outcome := some "declined" },
           ⟨"DEV1", "@alice:example.org"⟩, false, none⟩ ++
        [Effect.cancelReq CancellationReason.userDeclined], Except.ok none) :=
  (completeOnNewDevice_declined
      ⟨"12", false, some { Payload.empty with outcome := some "declined" },
       ⟨"DEV1", "@alice:example.org"⟩, false, none⟩
      { Payload.empty with outcome := some "declined" } rfl rfl).1

/-- Claim C7: after sending the offer, confirmLoginOnExistingDevice returns no
result when the channel yields no response; fails with the linking-failed
error when the response's outcome is not success; and otherwise records the
response's deviceId and deviceKeys into the session and returns the device id. -/
theorem confirmLogin_response_cases (s : Session) (env : ExistingDeviceEnv) :
    (env.received = none → (confirmLoginOnExistingDevice s env).2.2 = Except.ok none) ∧
    (∀ p, env.received = some p → p.outcome ≠ some "success" →
      (confirmLoginOnExistingDevice s env).2.2 = Except.error RError.linkingFailed) ∧
    (∀ p, env.received = some p → p.outcome = some "success" →
      (confirmLoginOnExistingDevice s env).1 =
        { s with newDeviceId := p.deviceId, newDeviceKeys := p.deviceKeys } ∧
      (confirmLoginOnExistingDevice s env).2.2 = Except.ok p.deviceId) := by
  refine ⟨?_, ?_, ?_⟩
  · intro h
    simp [confirmLoginOnExistingDevice, h]
  · intro p hp hout
    simp [confirmLoginOnExistingDevice, hp, hout]
  · intro p hp hout
    constructor <;> simp [confirmLoginOnExistingDevice, hp, hout]

/-- The success payload used by the C7 witness: device id DEV1 with one key. -/
def successPayloadW : Payload :=
  { Payload.empty with
      outcome := some "success", deviceId := some "DEV1",
      deviceKeys := some [("ed25519", "K1")] }

/-- Witness for C7 at a successful response carrying a device id and keys. -/
theorem confirmLogin_response_cases_witness :
    (confirmLoginOnExistingDevice ⟨none, none, none⟩
        ⟨"tok1", "@alice:example.org", "https://example.org", some successPayloadW⟩).1 =
      ⟨none, some "DEV1", some [("ed25519", "K1")]⟩ ∧
    (confirmLoginOnExistingDevice ⟨none, none, none⟩
        ⟨"tok1", "@alice:example.org", "https://example.org", some successPayloadW⟩).2.2 =
      Except.ok (some "DEV1") :=
  (confirmLogin_response_cases ⟨none, none, none⟩
      ⟨"tok1", "@alice:example.org", "https://example.org", some successPayloadW⟩).2.2
    successPayloadW rfl rfl

/-- Claim C10: confirmLoginOnExistingDevice is atomic on non-success.  When the
channel yields nothing, or the response's outcome is not success (an error is
thrown), the session fields are unchanged; any run that changes the session
had a response with outcome success. -/
theorem confirmLogin_atomic_on_failure (s : Session) (env : ExistingDeviceEnv) :
    (env.received = none → (confirmLoginOnExistingDevice s env).1 = s) ∧
    (∀ p, env.received = some p → p.outcome ≠ some "success" →
      (confirmLoginOnExistingDevice s env).1 = s ∧
      (confirmLoginOnExistingDevice s env).2.2 = Except.error RError.linkingFailed) ∧
    (∀ p, env.received = some p → (confirmLoginOnExistingDevice s env).1 ≠ s →
      p.outcome = some "success") := by
  refine ⟨?_, ?_, ?_⟩
  · intro h
    simp [confirmLoginOnExistingDevice, h]
  · intro p hp hout
    constructor <;> simp [confirmLoginOnExistingDevice, hp, hout]
  · intro p hp hchanged
    by_contra hout
    exact hchanged (by simp [confirmLoginOnExistingDevice, hp, hout])

/-- Witness for C10 at a response whose outcome is declined. -/
theorem confirmLogin_atomic_on_failure_witness :
    (confirmLoginOnExistingDevice ⟨none, some "OLD", none⟩
        ⟨"tok1", "@alice:example.org", "https://example.org",
         some { Payload.empty with outcome := some "declined" }⟩).1 =
      ⟨none, some "OLD", none⟩ ∧
    (confirmLoginOnExistingDevice ⟨none, some "OLD", none⟩
        ⟨"tok1", "@alice:example.org", "https://example.org",
         some { Payload.empty with outcome := some "declined" }⟩).2.2 =
      Except.error RError.linkingFailed :=
  (confirmLogin_atomic_on_failure ⟨none, some "OLD", none⟩
      ⟨"tok1", "@alice:example.org", "https://example.org",
       some { Payload.empty with outcome := some "declined" }⟩).2.1
    { Payload.empty with outcome := some "declined" } rfl (by decide)

/-- Claim C4 counterexample: a payload with outcome success but no deviceId is
not failed fast by confirmLoginOnExistingDevice — the run completes without an
error, returning Except.ok none, against the claim that every payload missing
a required field for its outcome makes the receiving operation fail fast. -/
theorem confirmLogin_success_without_deviceId_no_error :
    (confirmLoginOnExistingDevice ⟨none, none, none⟩
        ⟨"tok1", "@alice:example.org", "https://example.org",
         some { Payload.empty with outcome := some "success" }⟩).2.2 = Except.ok none ∧
    (confirmLoginOnExistingDevice ⟨none, none, none⟩
        ⟨"tok1", "@alice:example.org", "https://example.org",
         some { Payload.empty with outcome := some "success" }⟩).2.2 ≠
      Except.error RError.linkingFailed := by
  refine ⟨rfl, ?_⟩
  intro h
  exact Except.noConfusion h

/-- Claim C4 amended: completeOnNewDevice fails fast with an error naming the
missing field on a non-declined payload lacking homeserver or login token;
confirmLoginOnExistingDevice never presents a success payload lacking deviceId
as a successful exchange — it returns no device id (undefined) rather than
throwing an error. -/
theorem missing_fields_never_accepted (env : NewDeviceEnv) (p : Payload)
    (s : Session) (envE : ExistingDeviceEnv) (q : Payload)
    (hrec : env.received = some p) (hdecl : p.outcome ≠ some "declined")
    (hmiss : truthyStr p.homeserver = false ∨ truthyStr p.login_token = false)
    (hrecE : envE.received = some q) (hq : q.outcome = some "success")
    (hqd : q.deviceId = none) :
    (∃ e, (completeOnNewDevice env).2 = Except.error e ∧
      (e = RError.noHomeserverReturned ∨ e = RError.noLoginTokenReturned)) ∧
    (confirmLoginOnExistingDevice s envE).2.2 = Except.ok none := by
  constructor
  · cases hh : truthyStr p.homeserver
    · exact ⟨RError.noHomeserverReturned, by simp [completeOnNewDevice, hrec, hdecl, hh], Or.inl rfl⟩
    · rcases hmiss with hmiss | ht
      · rw [hh] at hmiss; exact Bool.noConfusion hmiss
      · exact ⟨RError.noLoginTokenReturned,
          by simp [completeOnNewDevice, hrec, hdecl, hh, ht], Or.inr rfl⟩
  · simp [confirmLoginOnExistingDevice, hrecE, hq, hqd]

/-- Witness for the amended C4 at concrete payloads. -/
theorem missing_fields_never_accepted_witness :
    (∃ e, (completeOnNewDevice
        ⟨"12", false, some { Payload.empty with login_token := some "tok1" },
         ⟨"DEV1", "@alice:example.org"⟩, false, none⟩).2 = Except.error e ∧
      (e = RError.noHomeserverReturned ∨ e = RError.noLoginTokenReturned)) ∧
    (confirmLoginOnExistingDevice ⟨none, none, none⟩
        ⟨"tok1", "@alice:example.org", "https://example.org",
         some { Payload.empty with outcome := some "success" }⟩).2.2 = Except.ok none :=
  missing_fields_never_accepted
    ⟨"12", false, some { Payload.empty with login_token := some "tok1" },
     ⟨"DEV1", "@alice:example.org"⟩, false, none⟩
    { Payload.empty with login_token := some "tok1" }
    ⟨none, none, none⟩
    ⟨"tok1", "@alice:example.org", "https://example.org",
     some { Payload.empty with outcome := some "success" }⟩
    { Payload.empty with outcome := some "success" }
    rfl (by decide) (Or.inl rfl) rfl rfl rfl

/-- Claim C6 counterexample: the payload confirmLoginOnExistingDevice sends is
the object literal with user, homeserver and login token only; its outcome
field is absent, not the discriminant value offer the claim requires. -/
theorem offer_payload_lacks_outcome :
    (confirmLoginOnExistingDevice ⟨none, none, none⟩
        ⟨"tok1", "@alice:example.org", "https://example.org", none⟩).2.1 =
      [Effect.authedRequestLoginToken,
       Effect.send (offerPayload ⟨"tok1", "@alice:example.org", "https://example.org", none⟩),
       Effect.receive] ∧
    (offerPayload ⟨"tok1", "@alice:example.org", "https://example.org", none⟩).outcome = none ∧
    (offerPayload ⟨"tok1", "@alice:example.org", "https://example.org", none⟩).outcome ≠
      some "offer" := by
  exact ⟨rfl, rfl, by decide⟩

/-- Claim C6 amended: the payload confirmLoginOnExistingDevice sends over the
channel contains the requesting user id, the homeserver base URL and the
one-time login token, with every other field — including the outcome
discriminant — absent. -/
theorem confirmLogin_sends_offer (s : Session) (env : ExistingDeviceEnv) :
    (confirmLoginOnExistingDevice s env).2.1 =
      [Effect.authedRequestLoginToken, Effect.send (offerPayload env), Effect.receive] ∧
    offerPayload env = ⟨none, some env.baseUrl, some env.login_token, none, none,
      some env.userId⟩ := by
  constructor
  · rcases h : env.received with _ | p
    · simp [confirmLoginOnExistingDevice, h]
    · by_cases hout : p.outcome = some "success" <;>
        simp [confirmLoginOnExistingDevice, h, hout]
  · rfl

/-- Claim C1: the key-match check.  When the stored and reported key maps have
different sizes it fails with the count-mismatch error carrying the expected
and actual counts; when the sizes are equal and every reported key id has a
stored value equal to the reported value it calls
setDeviceVerification(userId, newDeviceId, true, false, true) and returns the
resulting verification record; and when the sizes are equal but some reported
key id has a differing stored value it fails with the key-mismatch error
naming a differing key id. -/
theorem checkAndCrossSignDevice_spec (userId devId : String)
    (deviceInfo : DeviceInfo) (reported : List (String × String)) :
    (deviceInfo.keys.length ≠ reported.length →
      checkAndCrossSignDevice userId devId reported deviceInfo =
        ([], Except.error (RError.keyCountMismatch deviceInfo.keys.length reported.length))) ∧
    (deviceInfo.keys.length = reported.length →
      (∀ k ∈ reported.map Prod.fst, alistLookup deviceInfo.keys k = alistLookup reported k) →
      checkAndCrossSignDevice userId devId reported deviceInfo =
        ([Effect.setDeviceVerification userId devId true false true],
         Except.ok ⟨userId, devId, true, false, true⟩)) ∧
    (deviceInfo.keys.length = reported.length →
      ∀ k ∈ reported.map Prod.fst,
        alistLookup deviceInfo.keys k ≠ alistLookup reported k →
        ∃ k2 ∈ reported.map Prod.fst,
          alistLookup deviceInfo.keys k2 ≠ alistLookup reported k2 ∧
          checkAndCrossSignDevice userId devId reported deviceInfo =
            ([], Except.error (RError.keyMismatch k2))) := by
  refine ⟨?_, ?_, ?_⟩
  · intro hlen
    simp [checkAndCrossSignDevice, hlen]
  · intro hlen hall
    have hloop : checkKeysLoop deviceInfo.keys reported (reported.map Prod.fst) = none :=
      (checkKeysLoop_eq_none _ _ _).mpr hall
    simp [checkAndCrossSignDevice, hlen, hloop]
  · intro hlen k hk hne
    have hloop : checkKeysLoop deviceInfo.keys reported (reported.map Prod.fst) ≠ none := by
      rw [Ne, checkKeysLoop_eq_none]
      intro hall
      exact hne (hall k hk)
    obtain ⟨k2, hk2⟩ := Option.ne_none_iff_exists'.mp hloop
    obtain ⟨hmem, hne2⟩ := checkKeysLoop_eq_some _ _ _ _ hk2
    refine ⟨k2, hmem, hne2, ?_⟩
    simp [checkAndCrossSignDevice, hlen, hk2]

/-- Witness for C1: a one-key exact match is cross-signed and returns the
verification record. -/
theorem checkAndCrossSignDevice_spec_witness :
    checkAndCrossSignDevice "@alice:example.org" "DEV1" [("ed25519", "K1")] ⟨[("ed25519", "K1")]⟩ =
      ([Effect.setDeviceVerification "@alice:example.org" "DEV1" true false true],
       Except.ok ⟨"@alice:example.org", "DEV1", true, false, true⟩) :=
  (checkAndCrossSignDevice_spec "@alice:example.org" "DEV1" ⟨[("ed25519", "K1")]⟩
      [("ed25519", "K1")]).2.1 rfl (by decide)

/-- Claim C2: crossSign case analysis.  A falsy newDeviceId fails with the
no-device-to-sign error; otherwise absent or empty newDeviceKeys returns
nothing to sign with no lookup; otherwise a device found on the first lookup
gets the key-match check and its result; a device found only on the second
lookup gets exactly one sleep of the given timeout between exactly two
lookups before the key-match check; a device absent both times fails with the
device-timeout error.  Every run performs at most two lookups and at most one
sleep, and the default timeout is 10 * 1000 milliseconds. -/
theorem crossSign_spec (s : Session) (userId : String)
    (d1 d2 : Option DeviceInfo) (timeout : Nat) :
    (truthyStr s.newDeviceId = false →
      crossSign s userId d1 d2 timeout = ([], Except.error RError.noDeviceToSign)) ∧
    (truthyStr s.newDeviceId = true →
      (s.newDeviceKeys = none ∨ s.newDeviceKeys = some []) →
      crossSign s userId d1 d2 timeout = ([], Except.ok none)) ∧
    (∀ keys, truthyStr s.newDeviceId = true → s.newDeviceKeys = some keys → keys ≠ [] →
      (∀ info, d1 = some info →
        crossSign s userId d1 d2 timeout =
          (Effect.getStoredDevice userId (s.newDeviceId.getD "") ::
            (checkAndCrossSignDevice userId (s.newDeviceId.getD "") keys info).1,
           (checkAndCrossSignDevice userId (s.newDeviceId.getD "") keys info).2.map some)) ∧
      (∀ info, d1 = none → d2 = some info →
        crossSign s userId d1 d2 timeout =
          ([Effect.getStoredDevice userId (s.newDeviceId.getD ""), Effect.sleep timeout,
            Effect.getStoredDevice userId (s.newDeviceId.getD "")] ++
            (checkAndCrossSignDevice userId (s.newDeviceId.getD "") keys info).1,
           (checkAndCrossSignDevice userId (s.newDeviceId.getD "") keys info).2.map some)) ∧
      (d1 = none → d2 = none →
        crossSign s userId d1 d2 timeout =
          ([Effect.getStoredDevice userId (s.newDeviceId.getD ""), Effect.sleep timeout,
            Effect.getStoredDevice userId (s.newDeviceId.getD "")],
           Except.error RError.deviceNotOnlineWithinTimeout))) ∧
    lookupCount (crossSign s userId d1 d2 timeout).1 ≤ 2 ∧
    sleepCount (crossSign s userId d1 d2 timeout).1 ≤ 1 ∧
    crossSignD s userId d1 d2 = crossSign s userId d1 d2 (10 * 1000) := by
  have hlen0 : ∀ keys : List (String × String), keys ≠ [] → ¬keys.length = 0 := by
    intro keys hne h0
    exact hne (List.length_eq_zero.mp h0)
  refine ⟨?_, ?_, ?_, (crossSign_lookup_sleep_bound s userId d1 d2 timeout).1,
    (crossSign_lookup_sleep_bound s userId d1 d2 timeout).2, rfl⟩
  · intro hT
    simp [crossSign, hT]
  · intro hT hkeys
    rcases hkeys with hk | hk <;> simp [crossSign, hT, hk]
  · intro keys hT hk hne
    refine ⟨?_, ?_, ?_⟩
    · intro info hd1
      simp [crossSign, hT, hk, hlen0 keys hne, hd1]
    · intro info hd1 hd2
      simp [crossSign, hT, hk, hlen0 keys hne, hd1, hd2]
    · intro hd1 hd2
      simp [crossSign, hT, hk, hlen0 keys hne, hd1, hd2]

/-- Witness for C2: the device found only on the second lookup, with matching
keys, is cross-signed after one sleep of the default timeout. -/
theorem crossSign_spec_witness :
    crossSign ⟨none, some "DEV1", some [("ed25519", "K1")]⟩ "@alice:example.org"
        none (some ⟨[("ed25519", "K1")]⟩) (10 * 1000) =
      ([Effect.getStoredDevice "@alice:example.org" "DEV1", Effect.sleep (10 * 1000),
        Effect.getStoredDevice "@alice:example.org" "DEV1",
        Effect.setDeviceVerification "@alice:example.org" "DEV1" true false true],
       Except.ok (some ⟨"@alice:example.org", "DEV1", true, false, true⟩)) := by
  have h := ((crossSign_spec ⟨none, some "DEV1", some [("ed25519", "K1")]⟩ "@alice:example.org"
      none (some ⟨[("ed25519", "K1")]⟩) (10 * 1000)).2.2.1
      [("ed25519", "K1")] (by decide) rfl (by decide)).2.1 ⟨[("ed25519", "K1")]⟩ rfl rfl
  rw [h]
  rfl

end Rendezvous
